import Mathlib

/-!
Shallow embedding of the video-storytelling pipeline
(`src/agents/*.py`) and proofs of its specification claims.

Python dicts with fixed keys become Lean structures; Python list
indexing (which raises `IndexError` out of range) becomes `List.get?`
in the `Option` monad, with `none` standing for a raised exception;
the external services (HTTP lookup, generative models, `ffmpeg`) are
parameters/oracles; the file system is modelled as the set of existing
paths, a function `String → Bool`.
-/

namespace VideoStorytelling

/-- Character record as returned by the metadata lookup service
(`mcp_server.py` response items: `name`, `birth_place`, `image_url`). -/
structure CharacterRecord where
  name : String
  birth_place : String
  image_url : String
deriving Repr, DecidableEq

/-- One narrative scene (`story["scenes"]` items in `story_agent.py`). -/
structure Scene where
  scene_number : Nat
  description : String
deriving Repr, DecidableEq

/-- The story dict returned by `create_story`. -/
structure Story where
  scenes : List Scene
deriving Repr, DecidableEq

/-- One script entry (`script_agent.py`). -/
structure ScriptEntry where
  scene_number : Nat
  description : String
  dialogue : String
deriving Repr, DecidableEq

/-- One start/end image pair per scene (`image_agent.py`). -/
structure ImagePair where
  scene_number : Nat
  start_image_path : String
  end_image_path : String
deriving Repr, DecidableEq

/-- Result of `get_character_images` (`history_agent.py`): either the
dict `{"characters": ...}` or the dict `{"error": ...}`. -/
inductive FetchResult where
  | characters (cs : List CharacterRecord)
  | error (msg : String)
deriving Repr, DecidableEq

/-- Dict lookup `character_data["characters"]`; `none` models the
`KeyError` raised when the key is absent (the error shape). -/
def FetchResult.charactersField : FetchResult → Option (List CharacterRecord)
  | .characters cs => some cs
  | .error _ => none

/-- Substring containment, the Python `needle in hay` on strings,
as infix containment of the code-point sequences. -/
def IsSubstr (needle hay : String) : Prop :=
  needle.data <:+: hay.data

/-- Executable substring test used where the Python code branches on
`character["name"] in base_prompt` (`image_agent.py` line 36). -/
def strContains (hay needle : String) : Bool :=
  decide (needle.data <:+: hay.data)

/-! ### Narrative Builder: `create_story` (`story_agent.py`)

The Python body indexes `family_history["records"][0]` and `[1]`;
fewer than two records raises `IndexError`, modelled by `none`.
The input dict `{"records": rs}` is passed as the list `rs`. -/

/-- The scene list returned by `create_story` once the first two
records `r0` and `r1` have been read (the dict literal of
`story_agent.py` lines 8-27, with the f-strings rendered as explicit
concatenations). -/
def scene1 (r0 r1 : CharacterRecord) : Scene :=
  { scene_number := 1,
    description := "Narrator: " ++ ("Meet " ++ r0.name ++ ", born in " ++ r0.birth_place) ++
      ", a man of strength and skill. And this is " ++
      (r1.name ++ ", born in " ++ r1.birth_place) ++ ", a woman of knowledge and grace." }

def storyTemplate (r0 r1 : CharacterRecord) : Story :=
  { scenes := [
    scene1 r0 r1,
    { scene_number := 2,
      description := "Narrator: " ++ r0.name ++
        " was a blacksmith, his days filled with the clang of the hammer and the heat of the forge." },
    { scene_number := 3,
      description := "Narrator: " ++ r1.name ++
        " was a teacher, her days spent in a library, surrounded by books and knowledge." },
    { scene_number := 4,
      description := "Narrator: They met in a library, a place of quiet and books, where their love story began. Their journey together led them to a beautiful wedding, a celebration of their love." } ] }

def create_story (records : List CharacterRecord) : Option Story := do
  let r0 ← records[0]?
  let r1 ← records[1]?
  pure (storyTemplate r0 r1)

/-- Unfolding equation of `create_story` in the success case. -/
theorem create_story_cons (r0 r1 : CharacterRecord) (t : List CharacterRecord) :
    create_story (r0 :: r1 :: t) = some (storyTemplate r0 r1) := by
  simp [create_story]

/-! ### Scene Scripter: `create_script` (`script_agent.py`) -/

def placeholderDialogue : String := "This is a placeholder dialogue."

def create_script (story : Story) : List ScriptEntry :=
  story.scenes.map fun scene =>
    { scene_number := scene.scene_number,
      description := scene.description,
      dialogue := placeholderDialogue }

/-! ### Image Synthesizer: `create_images` (`image_agent.py`)

Effects are made explicit: the generation calls issued to the image
model are recorded as `ImageGenRequest` values (one list per scene, in
issue order; the flat request trace is the concatenation). `urlPath`
is the external `urlparse(...).path` of the Python standard library.
The contents written by `generate_image` (real image bytes on success,
a textual placeholder on failure) do not affect the returned paths:
failures are swallowed (`image_agent.py` lines 59-63). -/

def imagesDir : String := "/usr/local/google/home/mlad/adk-demo/images"

def styleSuffix : String := ", in the style of a vintage photograph, with a warm, sepia-toned palette, cinematic, photorealistic, the characters are looking away from the camera, their faces are not clearly visible, detailed environment."

/-- One call to `generate_image`: the prompt, the output path written,
and the reference character image paths attached (`character_parts`). -/
structure ImageGenRequest where
  prompt : String
  output_path : String
  reference_image_paths : List String
deriving Repr, DecidableEq

/-- The base prompt of a non-first scene: the description with the
narrator prefix removed (`image_agent.py` line 24). -/
def basePrompt (scene : ScriptEntry) : String :=
  scene.description.replace "Narrator: " ""

def sceneStartPath (scene : ScriptEntry) : String :=
  imagesDir ++ "/scene_" ++ toString scene.scene_number ++ "_start.png"

def sceneEndPath (scene : ScriptEntry) : String :=
  imagesDir ++ "/scene_" ++ toString scene.scene_number ++ "_end.png"

/-- Reference character images attached to a generation call: the
portraits of every character whose name occurs in the base prompt
(`image_agent.py` lines 33-40); empty when the `"characters"` key is
absent. -/
def characterParts (urlPath : String → String) (characters : Option (List CharacterRecord))
    (base_prompt : String) : List String :=
  ((characters.getD []).filter
    (fun c => strContains base_prompt c.name)).map (fun c => urlPath c.image_url)

/-- The two generation calls a non-first scene issues, in order
(`image_agent.py` lines 27-31 and 68-69). -/
def sceneRequests (urlPath : String → String) (characters : Option (List CharacterRecord))
    (scene : ScriptEntry) : List ImageGenRequest :=
  let base_prompt := basePrompt scene
  let before_prompt := "Before the action: " ++ base_prompt ++ styleSuffix
  let after_prompt := if scene.scene_number = 4
    then "A wedding picture of John and Jane" ++ styleSuffix
    else "After the action: " ++ base_prompt ++ styleSuffix
  [{ prompt := before_prompt, output_path := sceneStartPath scene,
     reference_image_paths := characterParts urlPath characters base_prompt },
   { prompt := after_prompt, output_path := sceneEndPath scene,
     reference_image_paths := characterParts urlPath characters base_prompt }]

/-- Body of the per-scene loop of `create_images` (`image_agent.py`
lines 18-77). `characters` is the `"characters"` field of the
`character_images` dict (`none` when the key is absent); `none` in the
result models the `IndexError`/`KeyError` raised by the scene-1
branch. -/
def sceneImages (urlPath : String → String) (characters : Option (List CharacterRecord))
    (scene : ScriptEntry) : Option (ImagePair × List ImageGenRequest) :=
  if scene.scene_number = 1 then do
    let cs ← characters
    let c0 ← cs[0]?
    let c1 ← cs[1]?
    pure ({ scene_number := scene.scene_number,
            start_image_path := urlPath c0.image_url,
            end_image_path := urlPath c1.image_url }, [])
  else
    some ({ scene_number := scene.scene_number,
            start_image_path := sceneStartPath scene,
            end_image_path := sceneEndPath scene },
      sceneRequests urlPath characters scene)

def create_images (urlPath : String → String) (characters : Option (List CharacterRecord)) :
    List ScriptEntry → Option (List ImagePair × List (List ImageGenRequest))
  | [] => some ([], [])
  | scene :: rest => do
    let (pair, reqs) ← sceneImages urlPath characters scene
    let (pairs, reqss) ← create_images urlPath characters rest
    pure (pair :: pairs, reqs :: reqss)

/-- Helper: a string sandwiched between two others is a substring of
the concatenation. -/
theorem isSubstr_append (a n b : String) : IsSubstr n (a ++ n ++ b) :=
  ⟨a.data, b.data, by simp⟩

/-- Helper: `IsSubstr` transports along string equality. -/
theorem isSubstr_of_eq {n : String} {h1 h2 : String} (e : h1 = h2)
    (hs : IsSubstr n h1) : IsSubstr n h2 := e ▸ hs

/-- Claim C2: for every input list with at least two character records,
`create_story` succeeds and the resulting story has exactly 4 scenes
whose scene numbers are 1, 2, 3, 4 contiguous and in order. -/
theorem create_story_four_scenes (records : List CharacterRecord)
    (h : 2 ≤ records.length) :
    ∃ story, create_story records = some story ∧
      story.scenes.length = 4 ∧
      story.scenes.map Scene.scene_number = [1, 2, 3, 4] := by
  cases records with
  | nil => simp at h
  | cons r0 t =>
    cases t with
    | nil => simp at h
    | cons r1 t2 => exact ⟨_, create_story_cons r0 r1 t2, rfl, rfl⟩

/-- Witness for C2 at a concrete two-record input. -/
theorem create_story_four_scenes_witness :
    ∃ story, create_story
        [⟨"John", "Springfield", "file:///a.jpg"⟩, ⟨"Jane", "Rivertown", "file:///b.jpg"⟩] =
        some story ∧
      story.scenes.length = 4 ∧
      story.scenes.map Scene.scene_number = [1, 2, 3, 4] :=
  create_story_four_scenes _ (by decide)

/-- Helper for the scene-1 content claim: the general statement over
arbitrary first and second records. -/
theorem create_story_scene1_general (records : List CharacterRecord)
    (r0 r1 : CharacterRecord) (h0 : records[0]? = some r0)
    (h1 : records[1]? = some r1) :
    ∃ story, create_story records = some story ∧
      ∃ s1, story.scenes[0]? = some s1 ∧ s1.scene_number = 1 ∧
        IsSubstr ("Meet " ++ r0.name ++ ", born in " ++ r0.birth_place) s1.description ∧
        IsSubstr (r1.name ++ ", born in " ++ r1.birth_place) s1.description := by
  cases records with
  | nil => simp at h0
  | cons a t =>
    cases t with
    | nil => simp at h1
    | cons b t2 =>
      have h0' : a = r0 := by simpa using h0
      have h1' : b = r1 := by simpa using h1
      subst h0'; subst h1'
      refine ⟨_, create_story_cons a b t2, scene1 a b, by simp [storyTemplate], rfl, ?_, ?_⟩
      · exact isSubstr_of_eq (by simp [scene1, String.append_assoc]) (isSubstr_append "Narrator: "
          ("Meet " ++ a.name ++ ", born in " ++ a.birth_place)
          (", a man of strength and skill. And this is " ++
            (b.name ++ ", born in " ++ b.birth_place) ++ ", a woman of knowledge and grace."))
      · exact isSubstr_of_eq (by simp [scene1, String.append_assoc]) (isSubstr_append
          ("Narrator: " ++ ("Meet " ++ a.name ++ ", born in " ++ a.birth_place) ++
            ", a man of strength and skill. And this is ")
          (b.name ++ ", born in " ++ b.birth_place)
          ", a woman of knowledge and grace.")

/-- Claim C3: whenever the input records list has first element `r0` and
second element `r1`, `create_story` succeeds and scene 1 (the first
scene, with scene number 1) has a description containing the substring
`"Meet " ++ r0.name ++ ", born in " ++ r0.birth_place` and the substring
`r1.name ++ ", born in " ++ r1.birth_place`; in particular this holds
for the records John/Springfield and Jane/Rivertown, with substrings
"Meet John, born in Springfield" and "Jane, born in Rivertown". -/
theorem create_story_scene1_mentions :
    (∀ (records : List CharacterRecord) (r0 r1 : CharacterRecord),
      records[0]? = some r0 → records[1]? = some r1 →
      ∃ story, create_story records = some story ∧
        ∃ s1, story.scenes[0]? = some s1 ∧ s1.scene_number = 1 ∧
          IsSubstr ("Meet " ++ r0.name ++ ", born in " ++ r0.birth_place) s1.description ∧
          IsSubstr (r1.name ++ ", born in " ++ r1.birth_place) s1.description) ∧
    (∃ story, create_story
        [⟨"John", "Springfield", "file:///a.jpg"⟩, ⟨"Jane", "Rivertown", "file:///b.jpg"⟩] =
        some story ∧
      ∃ s1, story.scenes[0]? = some s1 ∧ s1.scene_number = 1 ∧
        IsSubstr "Meet John, born in Springfield" s1.description ∧
        IsSubstr "Jane, born in Rivertown" s1.description) := by
  refine ⟨create_story_scene1_general, ?_⟩
  obtain ⟨story, hs, s1, hg1, hg2, hg3, hg4⟩ :=
    create_story_scene1_general
      [⟨"John", "Springfield", "file:///a.jpg"⟩, ⟨"Jane", "Rivertown", "file:///b.jpg"⟩]
      ⟨"John", "Springfield", "file:///a.jpg"⟩ ⟨"Jane", "Rivertown", "file:///b.jpg"⟩ rfl rfl
  exact ⟨story, hs, s1, hg1, hg2, hg3, hg4⟩

/-- Witness for C3 at the concrete John/Jane records. -/
theorem create_story_scene1_mentions_witness :
    ∃ story, create_story
        [⟨"John", "Springfield", "file:///a.jpg"⟩, ⟨"Jane", "Rivertown", "file:///b.jpg"⟩] =
        some story ∧
      ∃ s1, story.scenes[0]? = some s1 ∧ s1.scene_number = 1 ∧
        IsSubstr ("Meet " ++ "John" ++ ", born in " ++ "Springfield") s1.description ∧
        IsSubstr ("Jane" ++ ", born in " ++ "Rivertown") s1.description :=
  create_story_scene1_mentions.1
    [⟨"John", "Springfield", "file:///a.jpg"⟩, ⟨"Jane", "Rivertown", "file:///b.jpg"⟩]
    _ _ rfl rfl

/-- Claim C4: `create_script` is total, its output has the same length
as the input scene list, each output entry copies `scene_number` and
`description` verbatim from the input scene at the same position, and
every entry's dialogue is the constant placeholder string. -/
theorem create_script_pointwise (story : Story) :
    (create_script story).length = story.scenes.length ∧
    ∀ (i : Nat) (e : ScriptEntry), (create_script story)[i]? = some e →
      ∃ s, story.scenes[i]? = some s ∧
        e.scene_number = s.scene_number ∧
        e.description = s.description ∧
        e.dialogue = placeholderDialogue := by
  constructor
  · exact List.length_map _ _
  · intro i e he
    rw [create_script, List.getElem?_map] at he
    cases hs : story.scenes[i]? with
    | none => rw [hs] at he; simp at he
    | some s =>
      rw [hs] at he
      refine ⟨s, rfl, ?_⟩
      injection he with he
      subst he
      exact ⟨rfl, rfl, rfl⟩

/-- Witness for C4 at a concrete story. -/
theorem create_script_pointwise_witness :
    ((create_script { scenes := [⟨1, "alpha"⟩, ⟨2, "beta"⟩] }).length =
      ([⟨1, "alpha"⟩, ⟨2, "beta"⟩] : List Scene).length) ∧
    ∃ s, ([⟨1, "alpha"⟩, ⟨2, "beta"⟩] : List Scene)[1]? = some s ∧
      (⟨2, "beta", placeholderDialogue⟩ : ScriptEntry).scene_number = s.scene_number ∧
      (⟨2, "beta", placeholderDialogue⟩ : ScriptEntry).description = s.description ∧
      (⟨2, "beta", placeholderDialogue⟩ : ScriptEntry).dialogue = placeholderDialogue := by
  have h := create_script_pointwise { scenes := [⟨1, "alpha"⟩, ⟨2, "beta"⟩] }
  exact ⟨h.1, h.2 1 ⟨2, "beta", placeholderDialogue⟩ rfl⟩

/-- Claim C5: with at least two character records supplied, `create_images`
returns exactly one `ImagePair` per `ScriptEntry`, in the same order, with
positionally matching scene numbers; for any entry with scene number 1 the
pair start/end paths are the first and second characters' portrait file
paths and no generation request is issued for that scene. -/
theorem create_images_one_pair_per_entry (urlPath : String → String)
    (cs : List CharacterRecord) (c0 c1 : CharacterRecord)
    (h0 : cs[0]? = some c0) (h1 : cs[1]? = some c1) (script : List ScriptEntry) :
    ∃ pairs reqss, create_images urlPath (some cs) script = some (pairs, reqss) ∧
      pairs.length = script.length ∧ reqss.length = script.length ∧
      (∀ i : Nat, (pairs[i]?).map ImagePair.scene_number =
        (script[i]?).map ScriptEntry.scene_number) ∧
      (∀ (i : Nat) (e : ScriptEntry), script[i]? = some e → e.scene_number = 1 →
        pairs[i]? = some ⟨1, urlPath c0.image_url, urlPath c1.image_url⟩ ∧
          reqss[i]? = some []) := by
  induction script with
  | nil =>
    refine ⟨[], [], rfl, rfl, rfl, fun i => rfl, fun i e he _ => ?_⟩
    simp at he
  | cons e rest ih =>
    obtain ⟨pairs, reqss, heq, hlen1, hlen2, hnum, hone⟩ := ih
    by_cases he : e.scene_number = 1
    · have hs : sceneImages urlPath (some cs) e =
          some (⟨1, urlPath c0.image_url, urlPath c1.image_url⟩, []) := by
        simp [sceneImages, he, h0, h1]
      refine ⟨(⟨1, urlPath c0.image_url, urlPath c1.image_url⟩ : ImagePair) :: pairs,
        [] :: reqss, ?_, by simp [hlen1], by simp [hlen2], ?_, ?_⟩
      · simp [create_images, hs, heq]
      · intro i
        cases i with
        | zero => simp [he]
        | succ j => simpa using hnum j
      · intro i f hf hf1
        cases i with
        | zero => simp_all
        | succ j =>
          have := hone j f (by simpa using hf) hf1
          simpa using this
    · have hs : sceneImages urlPath (some cs) e =
          some (⟨e.scene_number, sceneStartPath e, sceneEndPath e⟩,
            sceneRequests urlPath (some cs) e) := by
        simp [sceneImages, he]
      refine ⟨(⟨e.scene_number, sceneStartPath e, sceneEndPath e⟩ : ImagePair) :: pairs,
        sceneRequests urlPath (some cs) e :: reqss, ?_,
        by simp [hlen1], by simp [hlen2], ?_, ?_⟩
      · simp [create_images, hs, heq]
      · intro i
        cases i with
        | zero => simp
        | succ j => simpa using hnum j
      · intro i f hf hf1
        cases i with
        | zero =>
          exfalso
          apply he
          have hef : e = f := by simpa using hf
          rw [hef]; exact hf1
        | succ j =>
          have := hone j f (by simpa using hf) hf1
          simpa using this

/-- Witness for C5: two characters, a two-entry script with scene
numbers 1 and 2. -/
theorem create_images_one_pair_per_entry_witness :
    ∃ pairs reqss, create_images (fun u => u)
        (some [⟨"John", "Springfield", "/img/john.jpg"⟩, ⟨"Jane", "Rivertown", "/img/jane.jpg"⟩])
        [⟨1, "d1", "dlg"⟩, ⟨2, "d2", "dlg"⟩] = some (pairs, reqss) ∧
      pairs.length = 2 ∧ reqss.length = 2 ∧
      (∀ i : Nat, (pairs[i]?).map ImagePair.scene_number =
        (([⟨1, "d1", "dlg"⟩, ⟨2, "d2", "dlg"⟩] : List ScriptEntry)[i]?).map ScriptEntry.scene_number) ∧
      (∀ (i : Nat) (e : ScriptEntry),
        ([⟨1, "d1", "dlg"⟩, ⟨2, "d2", "dlg"⟩] : List ScriptEntry)[i]? = some e →
        e.scene_number = 1 →
        pairs[i]? = some ⟨1, "/img/john.jpg", "/img/jane.jpg"⟩ ∧ reqss[i]? = some []) :=
  create_images_one_pair_per_entry (fun u => u) _
    ⟨"John", "Springfield", "/img/john.jpg"⟩ ⟨"Jane", "Rivertown", "/img/jane.jpg"⟩
    rfl rfl _

/-- Claim C10: if fewer than two character records are supplied and the
script contains an entry with scene number 1, the scene-1 branch's
index accesses fall outside the characters list and `create_images`
fails (the modelled `IndexError`); at least two records are an implicit
precondition for normal completion. -/
theorem create_images_needs_two_characters (urlPath : String → String)
    (cs : List CharacterRecord) (hcs : cs.length < 2) (script : List ScriptEntry)
    (hscene : ∃ e ∈ script, e.scene_number = 1) :
    create_images urlPath (some cs) script = none := by
  induction script with
  | nil => simp at hscene
  | cons e rest ih =>
    obtain ⟨f, hf, hf1⟩ := hscene
    simp only [List.mem_cons] at hf
    by_cases he : e.scene_number = 1
    · have hs : sceneImages urlPath (some cs) e = none := by
        match cs, hcs with
        | [], _ => simp [sceneImages, he]
        | [c], _ => simp [sceneImages, he]
      simp [create_images, hs]
    · have hfr : f ∈ rest := by
        rcases hf with hf | hf
        · exact absurd (hf ▸ hf1) he
        · exact hf
      have hrest := ih ⟨f, hfr, hf1⟩
      cases hs : sceneImages urlPath (some cs) e with
      | none => simp [create_images, hs]
      | some pr => simp [create_images, hs, hrest]

/-- Witness for C10: one character only, script containing scene 1. -/
theorem create_images_needs_two_characters_witness :
    create_images (fun u => u) (some [⟨"John", "Springfield", "/img/john.jpg"⟩])
      [⟨1, "d1", "dlg"⟩] = none :=
  create_images_needs_two_characters (fun u => u) _ (by decide) _
    ⟨⟨1, "d1", "dlg"⟩, by simp, rfl⟩

/-! ### Metadata Fetcher: `get_character_images` (`history_agent.py`)

The single network request is a parameter: `HttpResponse` holds the
status code and the parsed JSON body of the lookup service's answer.
The function is total (returns a `FetchResult` value in both branches):
a non-success status yields the error dict, it is not raised. -/

structure HttpResponse where
  status_code : Nat
  json : List CharacterRecord
deriving Repr, DecidableEq

def get_character_images (family_name : String) (response : HttpResponse) : FetchResult :=
  if response.status_code = 200 then
    .characters response.json
  else
    .error ("Failed to fetch character images: " ++ toString response.status_code)

/-- Claim C6: for every family identifier, a 200 response maps to the
`characters` dict holding the response body, and any non-200 status
maps to the `error` dict holding a message string; both are returned as
structured values of the total function, not raised. -/
theorem get_character_images_shape (family_name : String) (response : HttpResponse) :
    (response.status_code = 200 →
      get_character_images family_name response = .characters response.json) ∧
    (response.status_code ≠ 200 →
      get_character_images family_name response =
        .error ("Failed to fetch character images: " ++ toString response.status_code)) := by
  constructor <;> intro h <;> simp [get_character_images, h]

/-- Witness for C6 at statuses 200 and 404. -/
theorem get_character_images_shape_witness :
    get_character_images "Doe" ⟨200, [⟨"John", "Springfield", "/img/john.jpg"⟩]⟩ =
      .characters [⟨"John", "Springfield", "/img/john.jpg"⟩] ∧
    get_character_images "Doe" ⟨404, []⟩ =
      .error ("Failed to fetch character images: " ++ toString (404 : Nat)) :=
  ⟨(get_character_images_shape "Doe" ⟨200, [⟨"John", "Springfield", "/img/john.jpg"⟩]⟩).1 rfl,
   (get_character_images_shape "Doe" ⟨404, []⟩).2 (by decide)⟩

/-! ### Video job polling (`video_agent.py` lines 44-46)

The loop is `while not operation.done: time.sleep(15); operation =
client.operations.get(operation)`. The job is an oracle `done : Nat →
Bool` giving the status the n-th check observes (`done 0` is the state
of the freshly submitted operation). `pollLoop done fuel k` runs the
loop from check index `k` allowing at most `fuel` further re-checks; it
returns the index of the first check reporting completion together
with the list of sleep durations performed, and `none` when the loop
is still running after `fuel` re-checks — the code itself has no such
bound, which is exactly what the theorem below makes precise. -/

def pollLoop (done : Nat → Bool) : Nat → Nat → Option (Nat × List Nat)
  | 0, k => if done k then some (k, []) else none
  | fuel + 1, k =>
    if done k then some (k, [])
    else (pollLoop done fuel (k + 1)).map (fun rs => (rs.1, 15 :: rs.2))

/-- Helper: a successful run of the poll loop stops at the first
completed check at or after its start, sleeping exactly 15 units
before every re-check. -/
theorem pollLoop_spec (done : Nat → Bool) :
    ∀ (fuel k r : Nat) (sleeps : List Nat),
      pollLoop done fuel k = some (r, sleeps) →
      k ≤ r ∧ done r = true ∧ (∀ j, k ≤ j → j < r → done j = false) ∧
        sleeps = List.replicate (r - k) 15 := by
  intro fuel
  induction fuel with
  | zero =>
    intro k r sleeps h
    by_cases hk : done k
    · simp only [pollLoop, hk, if_true] at h
      obtain ⟨hr, hs⟩ : k = r ∧ [] = sleeps := by
        constructor <;> [exact congrArg Prod.fst (Option.some.inj h);
          exact congrArg Prod.snd (Option.some.inj h)]
      subst hr
      exact ⟨le_refl _, hk, fun j h1 h2 => absurd (lt_of_le_of_lt h1 h2) (lt_irrefl _),
        by simp [← hs]⟩
    · simp [pollLoop, hk] at h
  | succ fuel ih =>
    intro k r sleeps h
    by_cases hk : done k
    · simp only [pollLoop, hk, if_true] at h
      obtain ⟨hr, hs⟩ : k = r ∧ [] = sleeps := by
        constructor <;> [exact congrArg Prod.fst (Option.some.inj h);
          exact congrArg Prod.snd (Option.some.inj h)]
      subst hr
      exact ⟨le_refl _, hk, fun j h1 h2 => absurd (lt_of_le_of_lt h1 h2) (lt_irrefl _),
        by simp [← hs]⟩
    · simp only [pollLoop, hk, if_false, Bool.false_eq_true] at h
      cases hrec : pollLoop done fuel (k + 1) with
      | none => rw [hrec] at h; simp at h
      | some rs =>
        rw [hrec] at h
        simp only [Option.map_some'] at h
        obtain ⟨hr, hs⟩ : rs.1 = r ∧ 15 :: rs.2 = sleeps := by
          constructor <;> [exact congrArg Prod.fst (Option.some.inj h);
            exact congrArg Prod.snd (Option.some.inj h)]
        obtain ⟨h1, h2, h3, h4⟩ := ih (k + 1) rs.1 rs.2 (by rw [hrec])
        subst hr
        refine ⟨by omega, h2, ?_, ?_⟩
        · intro j hj1 hj2
          rcases Nat.eq_or_lt_of_le hj1 with hj | hj
          · rw [← hj]; simpa using hk
          · exact h3 j hj hj2
        · rw [← hs, h4]
          have : rs.1 - k = (rs.1 - (k + 1)) + 1 := by omega
          rw [this]
          rfl

/-- Helper: the poll loop terminates once given at least as much fuel
as the index of some completed check. -/
theorem pollLoop_terminates (done : Nat → Bool) :
    ∀ (fuel k : Nat), done (k + fuel) = true →
      ∃ r sleeps, pollLoop done fuel k = some (r, sleeps) := by
  intro fuel
  induction fuel with
  | zero =>
    intro k h
    exact ⟨k, [], by simp only [pollLoop]; simpa using h⟩
  | succ fuel ih =>
    intro k h
    by_cases hk : done k
    · exact ⟨k, [], by simp [pollLoop, hk]⟩
    · obtain ⟨r, sleeps, hr⟩ := ih (k + 1) (by rw [show k + 1 + fuel = k + (fuel + 1) by omega]; exact h)
      exact ⟨r, 15 :: sleeps, by simp [pollLoop, hk, hr]⟩

/-- Claim C8: the poll loop sleeps a fixed 15 units between
consecutive status checks and repeats until the first check that
reports completion (part 1); whenever the job eventually reports done,
some finite fuel suffices for the loop to terminate (part 2); a job
that never reports done is polled forever, no fuel ever suffices
(part 3); and there is no bound on the number of poll iterations that
is independent of the job's behaviour (part 4). -/
theorem create_video_poll_loop :
    (∀ (done : Nat → Bool) (fuel k r : Nat) (sleeps : List Nat),
      pollLoop done fuel k = some (r, sleeps) →
      k ≤ r ∧ done r = true ∧ (∀ j, k ≤ j → j < r → done j = false) ∧
        sleeps = List.replicate (r - k) 15) ∧
    (∀ done : Nat → Bool, (∃ n, done n = true) →
      ∃ fuel r sleeps, pollLoop done fuel 0 = some (r, sleeps)) ∧
    (∀ fuel k : Nat, pollLoop (fun _ => false) fuel k = none) ∧
    (∀ B : Nat, ∃ done : Nat → Bool, (∃ n, done n = true) ∧
      ∀ (fuel r : Nat) (sleeps : List Nat),
        pollLoop done fuel 0 = some (r, sleeps) → B < sleeps.length) := by
  refine ⟨pollLoop_spec, ?_, ?_, ?_⟩
  · intro done h
    obtain ⟨n, hn⟩ := h
    obtain ⟨r, sleeps, hr⟩ := pollLoop_terminates done n 0 (by simpa using hn)
    exact ⟨n, r, sleeps, hr⟩
  · intro fuel
    induction fuel with
    | zero => intro k; simp [pollLoop]
    | succ fuel ih => intro k; simp [pollLoop, ih]
  · intro B
    refine ⟨fun n => decide (n = B + 1), ⟨B + 1, by simp⟩, ?_⟩
    intro fuel r sleeps h
    obtain ⟨h1, h2, h3, h4⟩ := pollLoop_spec _ fuel 0 r sleeps h
    have hr : r = B + 1 := by simpa using h2
    subst hr
    simp [h4]

/-- Witness for C8: part 1 applied to a job done at the second check. -/
theorem create_video_poll_loop_witness :
    0 ≤ 1 ∧ (fun n => decide (1 ≤ n)) 1 = true ∧
      (∀ j, 0 ≤ j → j < 1 → (fun n => decide (1 ≤ n)) j = false) ∧
      ([15] : List Nat) = List.replicate (1 - 0) 15 :=
  create_video_poll_loop.1 (fun n => decide (1 ≤ n)) 5 0 1 [15] (by decide)

/-! ### Video Synthesizer: `create_video` (`video_agent.py`)

The file system is the set of existing paths (`FileSys`). Per-scene
video generation is an oracle `jobSuccess : Nat → Bool` telling whether
the operation for scene index `i` ends with a truthy
`operation.response`; the concatenation subprocess is an oracle
`ffmpegOk : Bool` (`check=True` raises on failure, modelled by `none`).
The computed-but-unused fade `filter_complex` string of lines 62-70
has no effect and is not modelled. -/

def FileSys : Type := String → Bool

def writeFile (p : String) (fs : FileSys) : FileSys :=
  fun q => if q = p then true else fs q

def removeFile (p : String) (fs : FileSys) : FileSys :=
  fun q => if q = p then false else fs q

def videosDir : String := "/usr/local/google/home/mlad/adk-demo/videos"

def panSuffix : String := " The camera pans from left to center on the first person, then from right to center on the second person."

/-- Path of the intermediate clip of the scene at index `i`
(`scene_{i+1}.mp4` in the videos directory). -/
def clipPath (i : Nat) : String :=
  videosDir ++ "/scene_" ++ toString (i + 1) ++ ".mp4"

def fileListPath : String := videosDir ++ "/file_list.txt"

def finalVideoPath : String := videosDir ++ "/final_video.mp4"

/-- One `generate_videos` call: the prompt and the seed image path
(the fixed generation config of lines 33-41 is constant). -/
structure VideoGenRequest where
  prompt : String
  image_path : String
deriving Repr, DecidableEq

/-- The per-scene generation loop of `create_video` (`video_agent.py`
lines 18-56) from scene index `i`: reads the scene's image pair
(`none` models the `IndexError` when `images` is shorter than the
script), issues one generation request per scene, and on success
writes the clip file and records its path; on failure the scene is
skipped. Returns the file system, the request trace and the
`video_clips` list. -/
def genClips (jobSuccess : Nat → Bool) (images : List ImagePair) :
    List ScriptEntry → Nat → FileSys → Option (FileSys × List VideoGenRequest × List String)
  | [], _, fs => some (fs, [], [])
  | scene :: rest, i, fs => do
    let ip ← images[i]?
    let prompt := scene.description ++ (if i = 0 then panSuffix else "")
    let (fs1, clips0) :=
      if jobSuccess i then (writeFile (clipPath i) fs, [clipPath i])
      else (fs, [])
    let (fs2, reqs, clips) ← genClips jobSuccess images rest (i + 1) fs1
    pure (fs2, ⟨prompt, ip.start_image_path⟩ :: reqs, clips0 ++ clips)

/-- Finalization of `create_video` (`video_agent.py` lines 58-94): with
two or more clips, write the manifest, run the stream-copy
concatenation (which writes the final file; on subprocess failure
`check=True` raises, modelled by `none`), then delete the clips and
the manifest; with exactly one clip return its path; with none return
the empty string. -/
def finalize (ffmpegOk : Bool) (video_clips : List String) (fs : FileSys) :
    Option (String × FileSys) :=
  match video_clips with
  | [] => some ("", fs)
  | [c] => some (c, fs)
  | _ :: _ :: _ =>
    let fs1 := writeFile fileListPath fs
    if ffmpegOk then
      let fs2 := writeFile finalVideoPath fs1
      let fs3 := video_clips.foldl (fun a c => removeFile c a) fs2
      let fs4 := removeFile fileListPath fs3
      some (finalVideoPath, fs4)
    else none

def create_video (jobSuccess : Nat → Bool) (ffmpegOk : Bool) (story : Story)
    (script : List ScriptEntry) (images : List ImagePair) (fs : FileSys) :
    Option (String × FileSys × List VideoGenRequest) := do
  let (fs1, reqs, video_clips) ← genClips jobSuccess images script 0 fs
  let (final_video_path, fs2) ← finalize ffmpegOk video_clips fs1
  pure (final_video_path, fs2, reqs)

/-- The clip paths produced by a run over `n` scenes: one clip per
successful scene index, in scene order. -/
def producedClips (jobSuccess : Nat → Bool) (n : Nat) : List String :=
  ((List.range n).filter (fun i => jobSuccess i)).map clipPath

/-- Helper: the generation loop succeeds whenever the images list
covers the script, writing exactly the successful scenes' clips. -/
theorem genClips_eq (jobSuccess : Nat → Bool) (images : List ImagePair) :
    ∀ (script : List ScriptEntry) (i : Nat) (fs : FileSys),
      i + script.length ≤ images.length →
      ∃ reqs, genClips jobSuccess images script i fs =
        some ((((List.range' i script.length).filter (fun j => jobSuccess j)).map clipPath).foldl
            (fun a c => writeFile c a) fs,
          reqs,
          ((List.range' i script.length).filter (fun j => jobSuccess j)).map clipPath) := by
  intro script
  induction script with
  | nil => intro i fs _; exact ⟨[], rfl⟩
  | cons scene rest ih =>
    intro i fs h
    obtain ⟨ip, hip⟩ : ∃ ip, images[i]? = some ip :=
      ⟨_, List.getElem?_eq_getElem (by simp only [List.length_cons] at h; omega)⟩
    by_cases hj : jobSuccess i
    · obtain ⟨reqs', hrec⟩ := ih (i + 1) (writeFile (clipPath i) fs)
        (by simp only [List.length_cons] at h; omega)
      refine ⟨⟨scene.description ++ (if i = 0 then panSuffix else ""), ip.start_image_path⟩ :: reqs', ?_⟩
      simp [genClips, hip, hj, hrec, List.range'_succ]
    · obtain ⟨reqs', hrec⟩ := ih (i + 1) fs
        (by simp only [List.length_cons] at h; omega)
      refine ⟨⟨scene.description ++ (if i = 0 then panSuffix else ""), ip.start_image_path⟩ :: reqs', ?_⟩
      simp [genClips, hip, hj, hrec, List.range'_succ]

/-- Helper: removing a list of files leaves any other path untouched. -/
theorem foldl_removeFile_not_mem :
    ∀ (l : List String) (fs : FileSys) (p : String), p ∉ l →
      (l.foldl (fun a c => removeFile c a) fs) p = fs p := by
  intro l
  induction l with
  | nil => intro fs p _; rfl
  | cons c rest ih =>
    intro fs p hp
    simp only [List.mem_cons, not_or] at hp
    rw [List.foldl_cons, ih _ _ hp.2]
    simp [removeFile, hp.1]

/-- Helper: removing a list of files deletes each of them. -/
theorem foldl_removeFile_mem :
    ∀ (l : List String) (fs : FileSys) (p : String), p ∈ l →
      (l.foldl (fun a c => removeFile c a) fs) p = false := by
  intro l
  induction l with
  | nil => intro fs p hp; simp at hp
  | cons c rest ih =>
    intro fs p hp
    rw [List.foldl_cons]
    by_cases hr : p ∈ rest
    · exact ih _ _ hr
    · have hpc : p = c := by
        rcases List.mem_cons.mp hp with h | h
        · exact h
        · exact absurd h hr
      rw [foldl_removeFile_not_mem _ _ _ hr]
      simp [removeFile, hpc]

/-- Helper: appending to a fixed string on the left is injective. -/
theorem string_append_left_cancel {a b c : String} (h : a ++ b = a ++ c) : b = c := by
  have hd : a.data ++ b.data = a.data ++ c.data := congrArg String.data h
  exact String.ext (List.append_cancel_left hd)

/-- Helper: no intermediate clip path is the final video path. -/
theorem clipPath_ne_final (i : Nat) : clipPath i ≠ finalVideoPath := by
  intro h
  have he : clipPath i = videosDir ++ ("/scene_" ++ (toString (i + 1) ++ ".mp4")) := by
    simp [clipPath, String.append_assoc]
  have h1 : ("/scene_" ++ (toString (i + 1) ++ ".mp4") : String) = "/final_video.mp4" :=
    string_append_left_cancel (he ▸ h)
  have hd : '/' :: 's' :: (("cene_" : String).data ++ (toString (i + 1) ++ ".mp4" : String).data) =
      '/' :: 'f' :: ("inal_video.mp4" : String).data := congrArg String.data h1
  injection hd with _ hd2
  injection hd2 with hd3 _
  exact absurd hd3 (by decide)

/-- Helper: the final video path is not the manifest path. -/
theorem final_ne_fileList : finalVideoPath ≠ fileListPath := by decide

/-- Claim C9: `create_video` never reads its `story` argument: two runs
that differ only in the narrative input produce identical results —
the same returned path, the same file-system effects and the same
generation request trace. -/
theorem create_video_story_dead (jobSuccess : Nat → Bool) (ffmpegOk : Bool)
    (story1 story2 : Story) (script : List ScriptEntry) (images : List ImagePair)
    (fs : FileSys) :
    create_video jobSuccess ffmpegOk story1 script images fs =
      create_video jobSuccess ffmpegOk story2 script images fs := rfl

/-- Claim C1: when the images list covers the script, `create_video`
returns the empty string if no clip was produced, the single clip's
path unmodified if exactly one was, and with two or more clips (and a
successful concatenation) it returns the final video path, which
exists in the resulting file system while the intermediate clips and
the manifest do not. -/
theorem create_video_finalization (jobSuccess : Nat → Bool) (ffmpegOk : Bool)
    (story : Story) (script : List ScriptEntry) (images : List ImagePair) (fs : FileSys)
    (h : script.length ≤ images.length) :
    (producedClips jobSuccess script.length = [] →
      ∃ fsOut reqs, create_video jobSuccess ffmpegOk story script images fs =
        some ("", fsOut, reqs)) ∧
    (∀ c, producedClips jobSuccess script.length = [c] →
      ∃ fsOut reqs, create_video jobSuccess ffmpegOk story script images fs =
        some (c, fsOut, reqs)) ∧
    (2 ≤ (producedClips jobSuccess script.length).length → ffmpegOk = true →
      ∃ fsOut reqs, create_video jobSuccess ffmpegOk story script images fs =
        some (finalVideoPath, fsOut, reqs) ∧
        fsOut finalVideoPath = true ∧ fsOut fileListPath = false ∧
        ∀ c ∈ producedClips jobSuccess script.length, fsOut c = false) := by
  obtain ⟨reqs, hgen⟩ := genClips_eq jobSuccess images script 0 fs (by omega)
  have hpc : producedClips jobSuccess script.length =
      ((List.range' 0 script.length).filter (fun j => jobSuccess j)).map clipPath := by
    rw [producedClips, List.range_eq_range']
  refine ⟨?_, ?_, ?_⟩
  · intro h0
    rw [hpc] at h0
    rw [h0] at hgen
    exact ⟨fs, reqs, by simp [create_video, hgen, finalize]⟩
  · intro c h1
    rw [hpc] at h1
    rw [h1] at hgen
    exact ⟨writeFile c fs, reqs, by simp [create_video, hgen, finalize]⟩
  · intro h2 hok
    subst hok
    rw [hpc] at h2
    cases hc : ((List.range' 0 script.length).filter (fun j => jobSuccess j)).map clipPath with
    | nil => rw [hc] at h2; simp at h2
    | cons c1 t1 =>
      cases t1 with
      | nil => rw [hc] at h2; simp at h2
      | cons c2 rest =>
        rw [hc] at hgen
        have hmem : ∀ c ∈ c1 :: c2 :: rest, ∃ j, clipPath j = c := by
          intro c hcmem
          rw [← hc] at hcmem
          obtain ⟨j, _, hj⟩ := List.mem_map.mp hcmem
          exact ⟨j, hj⟩
        have hfinal_notmem : finalVideoPath ∉ c1 :: c2 :: rest := by
          intro hmem2
          obtain ⟨j, hj⟩ := hmem (finalVideoPath) hmem2
          exact clipPath_ne_final j hj
        refine ⟨removeFile fileListPath
            ((c1 :: c2 :: rest).foldl (fun a c => removeFile c a)
              (writeFile finalVideoPath (writeFile fileListPath
                ((c1 :: c2 :: rest).foldl (fun a c => writeFile c a) fs)))),
          reqs, by simp [create_video, hgen, finalize], ?_, ?_, ?_⟩
        · rw [show removeFile fileListPath ((c1 :: c2 :: rest).foldl (fun a c => removeFile c a)
              (writeFile finalVideoPath (writeFile fileListPath
                ((c1 :: c2 :: rest).foldl (fun a c => writeFile c a) fs)))) finalVideoPath =
              ((c1 :: c2 :: rest).foldl (fun a c => removeFile c a)
                (writeFile finalVideoPath (writeFile fileListPath
                  ((c1 :: c2 :: rest).foldl (fun a c => writeFile c a) fs)))) finalVideoPath
            from by simp [removeFile, final_ne_fileList]]
          rw [foldl_removeFile_not_mem _ _ _ hfinal_notmem]
          simp [writeFile]
        · simp [removeFile]
        · intro c hcmem
          rw [hpc, hc] at hcmem
          by_cases hcf : c = fileListPath
          · simp [removeFile, hcf]
          · rw [show ∀ fsx : FileSys, removeFile fileListPath fsx c = fsx c
              from fun fsx => by simp [removeFile, hcf]]
            exact foldl_removeFile_mem _ _ _ hcmem

/-- Witness for C1 (the two-or-more-clips case): two scenes, both jobs
succeed, concatenation succeeds. -/
theorem create_video_finalization_witness :
    ∃ fsOut reqs, create_video (fun _ => true) true { scenes := [] }
        [⟨1, "d1", "dlg"⟩, ⟨2, "d2", "dlg"⟩]
        [⟨1, "/img/a.jpg", "/img/b.jpg"⟩, ⟨2, "/img/c.png", "/img/d.png"⟩]
        (fun _ => false) =
      some (finalVideoPath, fsOut, reqs) ∧
      fsOut finalVideoPath = true ∧ fsOut fileListPath = false ∧
      ∀ c ∈ producedClips (fun _ => true)
        ([⟨1, "d1", "dlg"⟩, ⟨2, "d2", "dlg"⟩] : List ScriptEntry).length,
        fsOut c = false :=
  (create_video_finalization (fun _ => true) true { scenes := [] }
    [⟨1, "d1", "dlg"⟩, ⟨2, "d2", "dlg"⟩]
    [⟨1, "/img/a.jpg", "/img/b.jpg"⟩, ⟨2, "/img/c.png", "/img/d.png"⟩]
    (fun _ => false) (by decide)).2.2 (by decide) rfl

/-! ### Orchestrator: `generate_family_story_video` (`agent.py` lines 9-20)

`character_data` is the dict returned by the Metadata Fetcher on
line 14 (`get_character_images family_name response` in this
embedding). Line 15 accesses `character_data["characters"]`
(`charactersField`; a `KeyError` on the error shape, modelled by
`none`) and line 17 passes the same dict to `create_images`. The
`"error"` key is never read and the error value is never returned. -/

def generate_family_story_video (urlPath : String → String) (jobSuccess : Nat → Bool)
    (ffmpegOk : Bool) (fs : FileSys) (character_data : FetchResult) : Option String := do
  let records ← character_data.charactersField
  let story ← create_story records
  let script := create_script story
  let (images, _reqs) ← create_images urlPath character_data.charactersField script
  let (video_path, _, _) ← create_video jobSuccess ffmpegOk story script images fs
  pure video_path

/-- The pipeline stages downstream of the `character_data["characters"]`
access, as a function of the records list alone. -/
def pipelineFromRecords (urlPath : String → String) (jobSuccess : Nat → Bool)
    (ffmpegOk : Bool) (fs : FileSys) (records : List CharacterRecord) : Option String := do
  let story ← create_story records
  let script := create_script story
  let (images, _reqs) ← create_images urlPath (some records) script
  let (video_path, _, _) ← create_video jobSuccess ffmpegOk story script images fs
  pure video_path

/-- Helper: the orchestrator factors through the `"characters"` field of
the fetched dict — it reads nothing else of the fetch result. -/
theorem generate_factors (urlPath : String → String) (jobSuccess : Nat → Bool)
    (ffmpegOk : Bool) (fs : FileSys) (character_data : FetchResult) :
    generate_family_story_video urlPath jobSuccess ffmpegOk fs character_data =
      (character_data.charactersField).bind
        (pipelineFromRecords urlPath jobSuccess ffmpegOk fs) := by
  cases character_data <;> rfl

/-- Claim C7: the orchestrator neither inspects nor branches on the
error shape of the fetch result: its behaviour factors through the
`"characters"` field alone, feeding that field unchanged into the
Narrative Builder stage (part 1); two fetch results with the same
`"characters"` field are handled identically, whatever their error
messages (part 2); and on the error shape the run fails at the
`character_data["characters"]` access (modelled `none`) — in
particular the orchestrator never returns the error value itself
(part 3). -/
theorem orchestrator_no_error_branch (urlPath : String → String) (jobSuccess : Nat → Bool)
    (ffmpegOk : Bool) (fs : FileSys) :
    (∀ character_data : FetchResult,
      generate_family_story_video urlPath jobSuccess ffmpegOk fs character_data =
        (character_data.charactersField).bind
          (pipelineFromRecords urlPath jobSuccess ffmpegOk fs)) ∧
    (∀ r1 r2 : FetchResult, r1.charactersField = r2.charactersField →
      generate_family_story_video urlPath jobSuccess ffmpegOk fs r1 =
        generate_family_story_video urlPath jobSuccess ffmpegOk fs r2) ∧
    (∀ msg, generate_family_story_video urlPath jobSuccess ffmpegOk fs (.error msg) = none ∧
      ∀ s, generate_family_story_video urlPath jobSuccess ffmpegOk fs (.error msg) ≠ some s) := by
  refine ⟨generate_factors urlPath jobSuccess ffmpegOk fs, ?_, ?_⟩
  · intro r1 r2 hr
    rw [generate_factors, generate_factors, hr]
  · intro msg
    refine ⟨rfl, ?_⟩
    intro s hs
    exact Option.noConfusion hs

/-- Witness for C7: two different error messages are handled
identically under concrete oracles. -/
theorem orchestrator_no_error_branch_witness :
    generate_family_story_video (fun u => u) (fun _ => true) true (fun _ => false)
        (.error "Failed to fetch character images: 404") =
      generate_family_story_video (fun u => u) (fun _ => true) true (fun _ => false)
        (.error "Failed to fetch character images: 500") :=
  (orchestrator_no_error_branch (fun u => u) (fun _ => true) true (fun _ => false)).2.1
    (.error "Failed to fetch character images: 404")
    (.error "Failed to fetch character images: 500") rfl

end VideoStorytelling
